import Mathlib

/-!
Verification of the scheduler/reminder-firing core of `troly.py`
(a personal-reminder chat bot).

The shallow embedding below translates the time utilities
(`parse_hhmm`, `in_window`, `key_at`), the per-user tick evaluation of
`scheduler_loop`, the preset/toggle handlers, and the error-handling
skeleton of the tick loop into executable Lean definitions.  Instants
are calendar tuples (the program uses timezone-aware `datetime` values
whose comparison, for values sharing a date, is comparison of the
time-of-day components); unix timestamps are integers (the program uses
`time.time()`, whose sub-second part no claim depends on).
-/

/-- A calendar instant: the fields of a Python `datetime` that the
scheduler reads (all values produced by `datetime.now` satisfy
`hour < 24`, `minute < 60`, `second < 60`, `micro < 1000000`). -/
structure Instant where
  year : Nat
  month : Nat
  day : Nat
  hour : Nat
  minute : Nat
  second : Nat
  micro : Nat
deriving DecidableEq

/-- Time of day in microseconds; for in-range instants, comparing
`todMicro` is the same as comparing `(hour, minute, second, micro)`
lexicographically. -/
def todMicro (i : Instant) : Nat :=
  ((i.hour * 60 + i.minute) * 60 + i.second) * 1000000 + i.micro

/-- `now.replace(hour=h, minute=m, second=0, microsecond=0)`. -/
def replaceHM (i : Instant) (h m : Nat) : Instant :=
  { i with hour := h, minute := m, second := 0, micro := 0 }

/-- Python `datetime` comparison `a <= b`: lexicographic on
(date, time-of-day). -/
def instLE (a b : Instant) : Bool :=
  if a.year < b.year then true
  else if b.year < a.year then false
  else if a.month < b.month then true
  else if b.month < a.month then false
  else if a.day < b.day then true
  else if b.day < a.day then false
  else decide (todMicro a ≤ todMicro b)

/-- The whitespace characters stripped by Python's `str.strip()` and
`int()` (ASCII range). -/
def isPyWs (c : Char) : Bool :=
  c == ' ' || (9 ≤ c.toNat && c.toNat ≤ 13)

/-- Strip whitespace from both ends (`str.strip()`). -/
def stripWs (cs : List Char) : List Char :=
  ((cs.dropWhile isPyWs).reverse.dropWhile isPyWs).reverse

/-- Python `s.split(":")`: split at every colon, keeping empty fields. -/
def splitOnColon : List Char → List (List Char)
  | [] => [[]]
  | c :: rest =>
    let r := splitOnColon rest
    if c == ':' then [] :: r
    else
      match r with
      | [] => [[c]]
      | h :: tr => (c :: h) :: tr

/-- Value of an ASCII decimal digit. -/
def digitVal (c : Char) : Option Nat :=
  if 48 ≤ c.toNat && c.toNat ≤ 57 then some (c.toNat - 48) else none

/-- Digits of a Python integer literal after the first digit: a single
underscore is allowed between two digits (`int("1_2") = 12`), never
doubled, leading, or trailing. -/
def pyDigitsRest (acc : Nat) : List Char → Option Nat
  | [] => some acc
  | '_' :: rest =>
    match rest with
    | [] => none
    | c :: rest2 =>
      match digitVal c with
      | some d => pyDigitsRest (acc * 10 + d) rest2
      | none => none
  | c :: rest =>
    match digitVal c with
    | some d => pyDigitsRest (acc * 10 + d) rest
    | none => none

/-- A nonempty digit run with optional inner underscores. -/
def pyNatChars : List Char → Option Nat
  | [] => none
  | c :: rest =>
    match digitVal c with
    | some d => pyDigitsRest d rest
    | none => none

/-- Python `int(s)` on a decimal string: optional surrounding
whitespace, optional sign, digits with optional single inner
underscores; anything else raises (here: `none`). -/
def pyIntChars (cs : List Char) : Option Int :=
  match stripWs cs with
  | [] => none
  | '+' :: rest => Option.map (fun n => (n : Int)) (pyNatChars rest)
  | '-' :: rest => Option.map (fun n => -(n : Int)) (pyNatChars rest)
  | t => Option.map (fun n => (n : Int)) (pyNatChars t)

/-- `parse_hhmm` from the source: strip, split on `":"`, require
exactly two fields, convert each with `int(...)` (exceptions caught),
and range-check `0 <= h <= 23`, `0 <= m <= 59`. -/
def parse_hhmm (hhmm : String) : Option (Int × Int) :=
  match splitOnColon (stripWs hhmm.data) with
  | [a, b] =>
    match pyIntChars a, pyIntChars b with
    | some h, some m =>
      if 0 ≤ h ∧ h ≤ 23 ∧ 0 ≤ m ∧ m ≤ 59 then some (h, m) else none
    | _, _ => none
  | _ => none

/-- `in_window` from the source: parse both bounds (invalid bound means
`False`), anchor them on today's date, and test membership; a window
with `end <= start` wraps midnight. -/
def in_window (now : Instant) (start_hm end_hm : String) : Bool :=
  match parse_hhmm start_hm, parse_hhmm end_hm with
  | some (sh, sm), some (eh, em) =>
    let start := replaceHM now sh.toNat sm.toNat
    let en := replaceHM now eh.toNat em.toNat
    if instLE en start then instLE start now || instLE now en
    else instLE start now && instLE now en
  | _, _ => false

/-- ASCII digit character. -/
def digitChar (n : Nat) : Char := Char.ofNat (48 + n)

/-- Two-digit zero-padded rendering (as produced by `strftime` for
`%H`, `%M`, `%m`, `%d`). -/
def pad2 (n : Nat) : List Char :=
  if n < 10 then ['0', digitChar n]
  else [digitChar (n / 10), digitChar (n % 10)]

/-- Four-digit zero-padded rendering (`strftime` `%Y`). -/
def pad4 (n : Nat) : List Char :=
  if n < 10 then ['0', '0', '0', digitChar n]
  else if n < 100 then ['0', '0', digitChar (n / 10), digitChar (n % 10)]
  else if n < 1000 then
    ['0', digitChar (n / 100), digitChar (n / 10 % 10), digitChar (n % 10)]
  else
    [digitChar (n / 1000), digitChar (n / 100 % 10),
     digitChar (n / 10 % 10), digitChar (n % 10)]

/-- `now.strftime("%H:%M")`. -/
def hhmmStr (h m : Nat) : String :=
  String.mk (pad2 h ++ ':' :: pad2 m)

/-- `key_at` from the source: `now.strftime("%Y-%m-%d %H:%M")`, the
per-minute dedupe key for point events. -/
def key_at (i : Instant) : String :=
  String.mk (pad4 i.year ++ '-' :: pad2 i.month ++ '-' :: pad2 i.day
    ++ ' ' :: pad2 i.hour ++ ':' :: pad2 i.minute)

/-- A user record, with the fields of the default record created by
`ensure_user` that the scheduler, presets and toggles read or write
(`created_at` and `timezone` are never read by the scheduler and are
omitted).  In the source the record is a JSON dict; the `.get(k, d)`
fall-backs for absent keys never trigger on records created by
`ensure_user`, which this typed model embeds. -/
structure User where
  enabled : Bool
  wake_time : String
  sleep_time : String
  work_enabled : Bool
  work_start : String
  work_end : String
  work_days : List Nat
  break_enabled : Bool
  break_every_min : Int
  break_window_start : String
  break_window_end : String
  water_enabled : Bool
  water_every_min : Int
  water_window_start : String
  water_window_end : String
  eye_enabled : Bool
  eye_every_min : Int
  eye_window_start : String
  eye_window_end : String
  posture_enabled : Bool
  posture_every_min : Int
  posture_window_start : String
  posture_window_end : String
  exercise_enabled : Bool
  exercise_time : String
  meal_enabled : Bool
  breakfast_time : String
  lunch_time : String
  dinner_time : String
  last_fire : List (String × String)
  last_water_ts : Int
  last_break_ts : Int
  last_eye_ts : Int
  last_posture_ts : Int
deriving DecidableEq

/-- Lookup in a Python dict preserving insertion order
(`d.get(k)`: `none` when absent). -/
def lookupKey (k : String) : List (String × String) → Option String
  | [] => none
  | p :: rest => if p.1 == k then some p.2 else lookupKey k rest

/-- Python dict assignment `d[k] = v` (update in place or append). -/
def setKey (k v : String) : List (String × String) → List (String × String)
  | [] => [(k, v)]
  | p :: rest => if p.1 == k then (k, v) :: rest else p :: setKey k v rest

/-- `should_fire_once_per_minute` from the source: fire unless
`last_fire[event_key]` already equals the current minute key. -/
def should_fire_once_per_minute (u : User) (event_key : String)
    (now : Instant) : Bool :=
  match lookupKey event_key u.last_fire with
  | some last => !(last == key_at now)
  | none => true

/-- The firing condition of one point-event branch of the tick loop:
its enable gate, the exact string match `hhmm == configured`, and the
per-minute dedupe check. -/
def pointCond (snap : User) (now : Instant) (gate : Bool) (cfg : String)
    (key : String) : Bool :=
  gate && (hhmmStr now.hour now.minute == cfg)
       && should_fire_once_per_minute snap key now

/-- One point-event branch of the tick loop acting on accumulated
store state `st` (store record, dispatch log).  On fire, `tg_send` is
invoked (its result logged but never read) and `mark_fired` writes
`last_fire` wholesale from a copy of the tick SNAPSHOT's map with the
one key stamped — exactly as `mark_fired` builds `dict(u["last_fire"])`
from the loop-local `u`, not from the store. -/
def firePoint (snap : User) (now : Instant) (send : String → Bool)
    (st : User × List (String × Bool)) (gate : Bool) (cfg : String)
    (key : String) : User × List (String × Bool) :=
  if pointCond snap now gate cfg key then
    ({ st.1 with last_fire := setKey key (key_at now) snap.last_fire },
     st.2 ++ [(key, send key)])
  else st

/-- Decisions of one interval-event branch:
`(fired, baseline-written, new-baseline)`.  Mirrors the source:
enabled gate, `in_window`, `every_min = int(cfg or default)`,
seed when `last_ts == 0`, else fire when
`time.time() - last_ts >= every_min * 60`. -/
def intervalStep (en : Bool) (ws we : String) (every lastTs dflt : Int)
    (now : Instant) (t : Int) : Bool × Bool × Int :=
  if en then
    if in_window now ws we then
      if lastTs = 0 then (false, true, t)
      else if (if every = 0 then dflt else every) * 60 ≤ t - lastTs then
        (true, true, t)
      else (false, false, lastTs)
    else (false, false, lastTs)
  else (false, false, lastTs)

/-- One interval-event branch acting on accumulated store state:
applies the decisions of `intervalStep`, writing the category's
baseline field through `setTs` and appending the send attempt to the
log when firing. -/
def fireInterval (st : User × List (String × Bool)) (en : Bool)
    (ws we : String) (every lastTs dflt : Int) (key : String)
    (now : Instant) (t : Int) (send : String → Bool)
    (setTs : User → Int → User) : User × List (String × Bool) :=
  let r := intervalStep en ws we every lastTs dflt now t
  (if r.2.1 then setTs st.1 r.2.2 else st.1,
   if r.1 then st.2 ++ [(key, send key)] else st.2)

/-- `update_user(cid, {"last_break_ts": v})`. -/
def setBreakTs (s : User) (v : Int) : User := { s with last_break_ts := v }

/-- `update_user(cid, {"last_water_ts": v})`. -/
def setWaterTs (s : User) (v : Int) : User := { s with last_water_ts := v }

/-- `update_user(cid, {"last_eye_ts": v})`. -/
def setEyeTs (s : User) (v : Int) : User := { s with last_eye_ts := v }

/-- `update_user(cid, {"last_posture_ts": v})`. -/
def setPostureTs (s : User) (v : Int) : User := { s with last_posture_ts := v }

/-- The per-user body of one `scheduler_loop` tick: given the tick
snapshot `u` of the user, the shared instant `now` (with unix time `t`
and weekday `weekday`, Monday = 0) and the notifier, it returns the
user's record as left in the store and the ordered log of dispatch
attempts `(event_key, send result)`.  Branch order and the snapshot /
store distinction follow the source. -/
def processUser (u : User) (now : Instant) (t : Int) (weekday : Nat)
    (send : String → Bool) : User × List (String × Bool) :=
  if u.enabled then
    firePoint u now send
      (firePoint u now send
        (firePoint u now send
          (firePoint u now send
            (fireInterval
              (fireInterval
                (fireInterval
                  (fireInterval
                    (firePoint u now send
                      (firePoint u now send
                        (firePoint u now send
                          (firePoint u now send (u, []) true u.wake_time
                            "wake")
                          true u.sleep_time "sleep")
                        (u.work_enabled && u.work_days.contains weekday)
                        u.work_start "work_start")
                      (u.work_enabled && u.work_days.contains weekday)
                      u.work_end "work_end")
                    u.break_enabled u.break_window_start
                    u.break_window_end u.break_every_min u.last_break_ts
                    120 "break" now t send setBreakTs)
                  u.water_enabled u.water_window_start u.water_window_end
                  u.water_every_min u.last_water_ts 60 "water" now t send
                  setWaterTs)
                u.eye_enabled u.eye_window_start u.eye_window_end
                u.eye_every_min u.last_eye_ts 30 "eye" now t send
                setEyeTs)
              u.posture_enabled u.posture_window_start
              u.posture_window_end u.posture_every_min u.last_posture_ts
              45 "posture" now t send setPostureTs)
            u.exercise_enabled u.exercise_time "exercise")
          u.meal_enabled u.breakfast_time "breakfast")
        u.meal_enabled u.lunch_time "lunch")
      u.meal_enabled u.dinner_time "dinner"
  else (u, [])

/-- The default record created by `ensure_user` (note
`exercise_time = dinner_time = "18:30"`). -/
def defaultUser : User where
  enabled := true
  wake_time := "07:00"
  sleep_time := "23:00"
  work_enabled := true
  work_start := "09:00"
  work_end := "18:00"
  work_days := [0, 1, 2, 3, 4]
  break_enabled := true
  break_every_min := 120
  break_window_start := "09:00"
  break_window_end := "18:00"
  water_enabled := true
  water_every_min := 60
  water_window_start := "08:00"
  water_window_end := "22:00"
  eye_enabled := true
  eye_every_min := 30
  eye_window_start := "08:00"
  eye_window_end := "22:00"
  posture_enabled := true
  posture_every_min := 45
  posture_window_start := "08:00"
  posture_window_end := "22:00"
  exercise_enabled := true
  exercise_time := "18:30"
  meal_enabled := true
  breakfast_time := "07:30"
  lunch_time := "12:00"
  dinner_time := "18:30"
  last_fire := []
  last_water_ts := 0
  last_break_ts := 0
  last_eye_ts := 0
  last_posture_ts := 0

/-- Number of dispatch attempts for one event key in a tick log. -/
def countKey (k : String) (l : List (String × Bool)) : Nat :=
  (l.filter (fun p => p.1 == k)).length

/-- Tick-level exception handling of `scheduler_loop`: the whole
per-tick sweep over the user snapshot runs inside one
`try/except Exception` whose handler only logs.  `evalOne` abstracts
the per-user body (which can raise, e.g. on a non-numeric chat id or a
non-numeric interval value); the result is the list of per-user results
actually produced this tick, and the caught exception, if any. -/
def scheduler_tick {α β ε : Type} (evalOne : α → Except ε β) :
    List α → List β × Option ε
  | [] => ([], none)
  | x :: xs =>
    match evalOne x with
    | Except.ok b =>
      let r := scheduler_tick evalOne xs
      (b :: r.1, r.2)
    | Except.error e => ([], some e)

/-- The outer `while` of `scheduler_loop`: every tick's snapshot is
swept, each tick protected by its own handler, so a tick that raised
never prevents later ticks from running. -/
def scheduler_run {α β ε : Type} (evalOne : α → Except ε β)
    (ticks : List (List α)) : List (List β) :=
  ticks.map (fun us => (scheduler_tick evalOne us).1)

/-- `apply_preset` from the source: for a known preset name, overwrite
the schedule fields with the preset's values and initialize all four
interval baselines to the current unix time `t`; unknown names are
no-ops. -/
def apply_preset (u : User) (preset : String) (t : Int) : User :=
  if preset == "STANDARD" then
    { u with
      wake_time := "07:00", sleep_time := "23:00"
      work_enabled := true, work_start := "09:00", work_end := "18:00"
      break_enabled := true, break_every_min := 120
      water_enabled := true, water_every_min := 60
      eye_enabled := true, eye_every_min := 30
      posture_enabled := true, posture_every_min := 45
      exercise_enabled := true, exercise_time := "18:30"
      meal_enabled := true, breakfast_time := "07:30"
      lunch_time := "12:00", dinner_time := "18:30"
      last_water_ts := t, last_break_ts := t, last_eye_ts := t
      last_posture_ts := t }
  else if preset == "OFFICE" then
    { u with
      wake_time := "06:30", sleep_time := "23:00"
      work_enabled := true, work_start := "08:30", work_end := "17:30"
      break_enabled := true, break_every_min := 90
      water_enabled := true, water_every_min := 45
      eye_enabled := true, eye_every_min := 25
      posture_enabled := true, posture_every_min := 40
      exercise_enabled := true, exercise_time := "18:00"
      meal_enabled := true, breakfast_time := "07:00"
      lunch_time := "12:00", dinner_time := "18:30"
      last_water_ts := t, last_break_ts := t, last_eye_ts := t
      last_posture_ts := t }
  else if preset == "DEVELOPER" then
    { u with
      wake_time := "07:30", sleep_time := "00:00"
      work_enabled := true, work_start := "10:00", work_end := "19:00"
      break_enabled := true, break_every_min := 90
      water_enabled := true, water_every_min := 60
      eye_enabled := true, eye_every_min := 20
      posture_enabled := true, posture_every_min := 40
      exercise_enabled := true, exercise_time := "19:30"
      meal_enabled := true, breakfast_time := "08:00"
      lunch_time := "12:30", dinner_time := "19:30"
      last_water_ts := t, last_break_ts := t, last_eye_ts := t
      last_posture_ts := t }
  else if preset == "STUDENT" then
    { u with
      wake_time := "06:00", sleep_time := "22:30"
      work_enabled := true, work_start := "07:30", work_end := "17:00"
      break_enabled := true, break_every_min := 120
      water_enabled := true, water_every_min := 60
      eye_enabled := true, eye_every_min := 30
      posture_enabled := true, posture_every_min := 45
      exercise_enabled := true, exercise_time := "17:30"
      meal_enabled := true, breakfast_time := "06:30"
      lunch_time := "11:30", dinner_time := "18:00"
      last_water_ts := t, last_break_ts := t, last_eye_ts := t
      last_posture_ts := t }
  else if preset == "FITNESS" then
    { u with
      wake_time := "05:30", sleep_time := "22:00"
      work_enabled := true, work_start := "08:00", work_end := "17:00"
      break_enabled := true, break_every_min := 120
      water_enabled := true, water_every_min := 30
      eye_enabled := true, eye_every_min := 30
      posture_enabled := true, posture_every_min := 45
      exercise_enabled := true, exercise_time := "06:00"
      meal_enabled := true, breakfast_time := "07:00"
      lunch_time := "12:00", dinner_time := "18:00"
      last_water_ts := t, last_break_ts := t, last_eye_ts := t
      last_posture_ts := t }
  else u

/-- The `TOGGLE_BREAK` handler: flip the flag; when the new value is
on, also reset the baseline to the current unix time. -/
def toggle_break (u : User) (t : Int) : User :=
  let newv := !u.break_enabled
  if newv then { u with break_enabled := newv, last_break_ts := t }
  else { u with break_enabled := newv }

/-- The `TOGGLE_WATER` handler. -/
def toggle_water (u : User) (t : Int) : User :=
  let newv := !u.water_enabled
  if newv then { u with water_enabled := newv, last_water_ts := t }
  else { u with water_enabled := newv }

/-- The `TOGGLE_EYE` handler. -/
def toggle_eye (u : User) (t : Int) : User :=
  let newv := !u.eye_enabled
  if newv then { u with eye_enabled := newv, last_eye_ts := t }
  else { u with eye_enabled := newv }

/-- The `TOGGLE_POSTURE` handler. -/
def toggle_posture (u : User) (t : Int) : User :=
  let newv := !u.posture_enabled
  if newv then { u with posture_enabled := newv, last_posture_ts := t }
  else { u with posture_enabled := newv }

-- helper lemmas ----------------------------------------------------------

theorem countKey_append (K : String) (l1 l2 : List (String × Bool)) :
    countKey K (l1 ++ l2) = countKey K l1 + countKey K l2 := by
  simp [countKey, List.filter_append]

theorem countKey_single (K k : String) (b : Bool) :
    countKey K [(k, b)] = if k == K then 1 else 0 := by
  by_cases h : (k == K) = true <;> simp [countKey, h]

theorem countKey_ite_append (c : Bool) (l : List (String × Bool))
    (k K : String) (b : Bool) :
    countKey K (if c then l ++ [(k, b)] else l) =
      countKey K l + (if c && (k == K) then 1 else 0) := by
  cases c <;> simp [countKey_append, countKey_single]

theorem firePoint_snd (snap : User) (now : Instant) (send : String → Bool)
    (st : User × List (String × Bool)) (g : Bool) (cfg key : String) :
    (firePoint snap now send st g cfg key).2 =
      if pointCond snap now g cfg key then st.2 ++ [(key, send key)]
      else st.2 := by
  simp [firePoint, apply_ite]

theorem countKey_firePoint (snap : User) (now : Instant)
    (send : String → Bool) (st : User × List (String × Bool)) (g : Bool)
    (cfg key K : String) :
    countKey K (firePoint snap now send st g cfg key).2 =
      countKey K st.2 +
        (if pointCond snap now g cfg key && (key == K) then 1 else 0) := by
  rw [firePoint_snd, countKey_ite_append]

theorem fireInterval_snd (st : User × List (String × Bool)) (en : Bool)
    (ws we : String) (every lastTs dflt : Int) (key : String)
    (now : Instant) (t : Int) (send : String → Bool)
    (setTs : User → Int → User) :
    (fireInterval st en ws we every lastTs dflt key now t send setTs).2 =
      if (intervalStep en ws we every lastTs dflt now t).1 then
        st.2 ++ [(key, send key)]
      else st.2 := by
  simp [fireInterval]

theorem countKey_fireInterval (st : User × List (String × Bool)) (en : Bool)
    (ws we : String) (every lastTs dflt : Int) (key K : String)
    (now : Instant) (t : Int) (send : String → Bool)
    (setTs : User → Int → User) :
    countKey K
        (fireInterval st en ws we every lastTs dflt key now t send setTs).2 =
      countKey K st.2 +
        (if (intervalStep en ws we every lastTs dflt now t).1 && (key == K)
         then 1 else 0) := by
  rw [fireInterval_snd, countKey_ite_append]

theorem firePoint_fst (snap : User) (now : Instant) (send : String → Bool)
    (st : User × List (String × Bool)) (g : Bool) (cfg key : String) :
    (firePoint snap now send st g cfg key).1 =
      if pointCond snap now g cfg key then
        { st.1 with last_fire := setKey key (key_at now) snap.last_fire }
      else st.1 := by
  by_cases h : pointCond snap now g cfg key <;> simp [firePoint, h]

theorem fireInterval_fst (st : User × List (String × Bool)) (en : Bool)
    (ws we : String) (every lastTs dflt : Int) (key : String)
    (now : Instant) (t : Int) (send : String → Bool)
    (setTs : User → Int → User) :
    (fireInterval st en ws we every lastTs dflt key now t send setTs).1 =
      if (intervalStep en ws we every lastTs dflt now t).2.1 then
        setTs st.1 (intervalStep en ws we every lastTs dflt now t).2.2
      else st.1 := by
  simp [fireInterval]

theorem countKey_nil (K : String) : countKey K [] = 0 := rfl

theorem countKey_pair_nil (K : String) (x : User) :
    countKey K ((x, ([] : List (String × Bool)))).2 = 0 := rfl

theorem ite_last_water_ts (c : Prop) [Decidable c] (a b : User) :
    (if c then a else b).last_water_ts =
      if c then a.last_water_ts else b.last_water_ts :=
  apply_ite User.last_water_ts c a b

theorem ite_last_break_ts (c : Prop) [Decidable c] (a b : User) :
    (if c then a else b).last_break_ts =
      if c then a.last_break_ts else b.last_break_ts :=
  apply_ite User.last_break_ts c a b

theorem ite_last_eye_ts (c : Prop) [Decidable c] (a b : User) :
    (if c then a else b).last_eye_ts =
      if c then a.last_eye_ts else b.last_eye_ts :=
  apply_ite User.last_eye_ts c a b

theorem ite_last_posture_ts (c : Prop) [Decidable c] (a b : User) :
    (if c then a else b).last_posture_ts =
      if c then a.last_posture_ts else b.last_posture_ts :=
  apply_ite User.last_posture_ts c a b

theorem mk_last_fire_water (x : User) (lf : List (String × String)) :
    ({ x with last_fire := lf } : User).last_water_ts =
      x.last_water_ts := rfl

theorem mk_last_fire_break (x : User) (lf : List (String × String)) :
    ({ x with last_fire := lf } : User).last_break_ts =
      x.last_break_ts := rfl

theorem mk_last_fire_eye (x : User) (lf : List (String × String)) :
    ({ x with last_fire := lf } : User).last_eye_ts = x.last_eye_ts := rfl

theorem mk_last_fire_posture (x : User) (lf : List (String × String)) :
    ({ x with last_fire := lf } : User).last_posture_ts =
      x.last_posture_ts := rfl

theorem setWaterTs_water (x : User) (v : Int) :
    (setWaterTs x v).last_water_ts = v := rfl

theorem setBreakTs_water (x : User) (v : Int) :
    (setBreakTs x v).last_water_ts = x.last_water_ts := rfl

theorem setEyeTs_water (x : User) (v : Int) :
    (setEyeTs x v).last_water_ts = x.last_water_ts := rfl

theorem setPostureTs_water (x : User) (v : Int) :
    (setPostureTs x v).last_water_ts = x.last_water_ts := rfl

theorem setWaterTs_break (x : User) (v : Int) :
    (setWaterTs x v).last_break_ts = x.last_break_ts := rfl

theorem setBreakTs_break (x : User) (v : Int) :
    (setBreakTs x v).last_break_ts = v := rfl

theorem setEyeTs_break (x : User) (v : Int) :
    (setEyeTs x v).last_break_ts = x.last_break_ts := rfl

theorem setPostureTs_break (x : User) (v : Int) :
    (setPostureTs x v).last_break_ts = x.last_break_ts := rfl

theorem setWaterTs_eye (x : User) (v : Int) :
    (setWaterTs x v).last_eye_ts = x.last_eye_ts := rfl

theorem setBreakTs_eye (x : User) (v : Int) :
    (setBreakTs x v).last_eye_ts = x.last_eye_ts := rfl

theorem setEyeTs_eye (x : User) (v : Int) :
    (setEyeTs x v).last_eye_ts = v := rfl

theorem setPostureTs_eye (x : User) (v : Int) :
    (setPostureTs x v).last_eye_ts = x.last_eye_ts := rfl

theorem setWaterTs_posture (x : User) (v : Int) :
    (setWaterTs x v).last_posture_ts = x.last_posture_ts := rfl

theorem setBreakTs_posture (x : User) (v : Int) :
    (setBreakTs x v).last_posture_ts = x.last_posture_ts := rfl

theorem setEyeTs_posture (x : User) (v : Int) :
    (setEyeTs x v).last_posture_ts = x.last_posture_ts := rfl

theorem setPostureTs_posture (x : User) (v : Int) :
    (setPostureTs x v).last_posture_ts = v := rfl

theorem pair_fst (x : User) (l : List (String × Bool)) :
    ((x, l) : User × List (String × Bool)).1 = x := rfl

theorem processUser_water_ts (u : User) (now : Instant) (t : Int)
    (wd : Nat) (send : String → Bool) (hu : u.enabled = true) :
    (processUser u now t wd send).1.last_water_ts =
      (if (intervalStep u.water_enabled u.water_window_start
            u.water_window_end u.water_every_min u.last_water_ts 60 now
            t).2.1 then
        (intervalStep u.water_enabled u.water_window_start
          u.water_window_end u.water_every_min u.last_water_ts 60 now
          t).2.2
      else u.last_water_ts) := by
  rw [processUser, if_pos hu]
  simp only [firePoint_fst, fireInterval_fst, ite_last_water_ts,
    mk_last_fire_water, setWaterTs_water, setBreakTs_water,
    setEyeTs_water, setPostureTs_water, ite_self, pair_fst]

theorem processUser_count (u : User) (now : Instant) (t : Int) (wd : Nat)
    (send : String → Bool) (K : String) (hu : u.enabled = true) :
    countKey K (processUser u now t wd send).2 =
      (if pointCond u now true u.wake_time "wake" && ("wake" == K)
       then 1 else 0) +
      (if pointCond u now true u.sleep_time "sleep" && ("sleep" == K)
       then 1 else 0) +
      (if pointCond u now (u.work_enabled && u.work_days.contains wd)
            u.work_start "work_start" && ("work_start" == K)
       then 1 else 0) +
      (if pointCond u now (u.work_enabled && u.work_days.contains wd)
            u.work_end "work_end" && ("work_end" == K)
       then 1 else 0) +
      (if (intervalStep u.break_enabled u.break_window_start
            u.break_window_end u.break_every_min u.last_break_ts 120 now
            t).1 && ("break" == K)
       then 1 else 0) +
      (if (intervalStep u.water_enabled u.water_window_start
            u.water_window_end u.water_every_min u.last_water_ts 60 now
            t).1 && ("water" == K)
       then 1 else 0) +
      (if (intervalStep u.eye_enabled u.eye_window_start u.eye_window_end
            u.eye_every_min u.last_eye_ts 30 now t).1 && ("eye" == K)
       then 1 else 0) +
      (if (intervalStep u.posture_enabled u.posture_window_start
            u.posture_window_end u.posture_every_min u.last_posture_ts 45
            now t).1 && ("posture" == K)
       then 1 else 0) +
      (if pointCond u now u.exercise_enabled u.exercise_time "exercise"
            && ("exercise" == K)
       then 1 else 0) +
      (if pointCond u now u.meal_enabled u.breakfast_time "breakfast"
            && ("breakfast" == K)
       then 1 else 0) +
      (if pointCond u now u.meal_enabled u.lunch_time "lunch"
            && ("lunch" == K)
       then 1 else 0) +
      (if pointCond u now u.meal_enabled u.dinner_time "dinner"
            && ("dinner" == K)
       then 1 else 0) := by
  rw [processUser, if_pos hu]
  simp only [countKey_firePoint, countKey_fireInterval, countKey_pair_nil,
    countKey_nil, Nat.zero_add]

theorem processUser_break_ts (u : User) (now : Instant) (t : Int)
    (wd : Nat) (send : String → Bool) (hu : u.enabled = true) :
    (processUser u now t wd send).1.last_break_ts =
      (if (intervalStep u.break_enabled u.break_window_start
            u.break_window_end u.break_every_min u.last_break_ts 120 now
            t).2.1 then
        (intervalStep u.break_enabled u.break_window_start
          u.break_window_end u.break_every_min u.last_break_ts 120 now
          t).2.2
      else u.last_break_ts) := by
  rw [processUser, if_pos hu]
  simp only [firePoint_fst, fireInterval_fst, ite_last_break_ts,
    mk_last_fire_break, setWaterTs_break, setBreakTs_break,
    setEyeTs_break, setPostureTs_break, ite_self, pair_fst]

theorem processUser_eye_ts (u : User) (now : Instant) (t : Int)
    (wd : Nat) (send : String → Bool) (hu : u.enabled = true) :
    (processUser u now t wd send).1.last_eye_ts =
      (if (intervalStep u.eye_enabled u.eye_window_start
            u.eye_window_end u.eye_every_min u.last_eye_ts 30 now
            t).2.1 then
        (intervalStep u.eye_enabled u.eye_window_start u.eye_window_end
          u.eye_every_min u.last_eye_ts 30 now t).2.2
      else u.last_eye_ts) := by
  rw [processUser, if_pos hu]
  simp only [firePoint_fst, fireInterval_fst, ite_last_eye_ts,
    mk_last_fire_eye, setWaterTs_eye, setBreakTs_eye, setEyeTs_eye,
    setPostureTs_eye, ite_self, pair_fst]

theorem processUser_posture_ts (u : User) (now : Instant) (t : Int)
    (wd : Nat) (send : String → Bool) (hu : u.enabled = true) :
    (processUser u now t wd send).1.last_posture_ts =
      (if (intervalStep u.posture_enabled u.posture_window_start
            u.posture_window_end u.posture_every_min u.last_posture_ts 45
            now t).2.1 then
        (intervalStep u.posture_enabled u.posture_window_start
          u.posture_window_end u.posture_every_min u.last_posture_ts 45
          now t).2.2
      else u.last_posture_ts) := by
  rw [processUser, if_pos hu]
  simp only [firePoint_fst, fireInterval_fst, ite_last_posture_ts,
    mk_last_fire_posture, setWaterTs_posture, setBreakTs_posture,
    setEyeTs_posture, setPostureTs_posture, ite_self, pair_fst]

/-- Two accumulated tick states agree on the store record and on the
sequence of dispatched event keys (the send results may differ). -/
def sameState (st st' : User × List (String × Bool)) : Prop :=
  st.1 = st'.1 ∧ st.2.map Prod.fst = st'.2.map Prod.fst

theorem firePoint_sameState (snap : User) (now : Instant)
    (send send' : String → Bool) (st st' : User × List (String × Bool))
    (g : Bool) (cfg key : String) (h : sameState st st') :
    sameState (firePoint snap now send st g cfg key)
      (firePoint snap now send' st' g cfg key) := by
  obtain ⟨h1, h2⟩ := h
  by_cases hc : pointCond snap now g cfg key <;>
    simp [firePoint, hc, sameState, h1, h2]

theorem fireInterval_sameState (st st' : User × List (String × Bool))
    (en : Bool) (ws we : String) (every lastTs dflt : Int) (key : String)
    (now : Instant) (t : Int) (send send' : String → Bool)
    (setTs : User → Int → User) (h : sameState st st') :
    sameState
      (fireInterval st en ws we every lastTs dflt key now t send setTs)
      (fireInterval st' en ws we every lastTs dflt key now t send'
        setTs) := by
  obtain ⟨h1, h2⟩ := h
  constructor
  · rw [fireInterval_fst, fireInterval_fst, h1]
  · rw [fireInterval_snd, fireInterval_snd]
    by_cases hc :
        (intervalStep en ws we every lastTs dflt now t).1 = true <;>
      simp [hc, h2]

theorem processUser_sameState (u : User) (now : Instant) (t : Int)
    (wd : Nat) (send send' : String → Bool) :
    sameState (processUser u now t wd send)
      (processUser u now t wd send') := by
  rw [processUser, processUser]
  by_cases hu : u.enabled = true
  · rw [if_pos hu, if_pos hu]
    apply firePoint_sameState
    apply firePoint_sameState
    apply firePoint_sameState
    apply firePoint_sameState
    apply fireInterval_sameState
    apply fireInterval_sameState
    apply fireInterval_sameState
    apply fireInterval_sameState
    apply firePoint_sameState
    apply firePoint_sameState
    apply firePoint_sameState
    apply firePoint_sameState
    exact ⟨rfl, rfl⟩
  · rw [if_neg hu, if_neg hu]
    exact ⟨rfl, rfl⟩

theorem instLE_same_date (a b : Instant) (h1 : a.year = b.year)
    (h2 : a.month = b.month) (h3 : a.day = b.day) :
    instLE a b = decide (todMicro a ≤ todMicro b) := by
  simp [instLE, h1, h2, h3]

theorem instLE_replace_left (now : Instant) (h m : Nat) :
    instLE (replaceHM now h m) now =
      decide (todMicro (replaceHM now h m) ≤ todMicro now) :=
  instLE_same_date _ _ rfl rfl rfl

theorem instLE_replace_right (now : Instant) (h m : Nat) :
    instLE now (replaceHM now h m) =
      decide (todMicro now ≤ todMicro (replaceHM now h m)) :=
  instLE_same_date _ _ rfl rfl rfl

theorem instLE_replace_both (now : Instant) (h m h2 m2 : Nat) :
    instLE (replaceHM now h m) (replaceHM now h2 m2) =
      decide (todMicro (replaceHM now h m) ≤
        todMicro (replaceHM now h2 m2)) :=
  instLE_same_date _ _ rfl rfl rfl

theorem in_window_invalid (now : Instant) (s e : String)
    (h : parse_hhmm s = none ∨ parse_hhmm e = none) :
    in_window now s e = false := by
  rcases h with h | h
  · simp [in_window, h]
  · cases hps : parse_hhmm s with
    | none => simp [in_window, hps]
    | some v => cases v with
      | mk sh sm => simp [in_window, hps, h]

theorem in_window_eq (now : Instant) (s e : String) (sh sm eh em : Int)
    (hs : parse_hhmm s = some (sh, sm))
    (he : parse_hhmm e = some (eh, em)) :
    in_window now s e =
      (if todMicro (replaceHM now eh.toNat em.toNat) ≤
           todMicro (replaceHM now sh.toNat sm.toNat) then
        decide (todMicro (replaceHM now sh.toNat sm.toNat) ≤
            todMicro now) ||
          decide (todMicro now ≤
            todMicro (replaceHM now eh.toNat em.toNat))
      else
        decide (todMicro (replaceHM now sh.toNat sm.toNat) ≤
            todMicro now) &&
          decide (todMicro now ≤
            todMicro (replaceHM now eh.toNat em.toNat))) := by
  simp only [in_window, hs, he, instLE_replace_both, instLE_replace_left,
    instLE_replace_right, decide_eq_true_eq]

/-- Rendering/parsing round trip: every in-range zero-padded `HH:MM`
string parses back to its components. -/
theorem parse_hhmm_render :
    ∀ h : Nat, h < 24 → ∀ m : Nat, m < 60 →
      parse_hhmm (hhmmStr h m) = some ((h : Int), (m : Int)) := by
  decide

/-- The unpadded `H:MM` shape is also accepted. -/
theorem parse_hhmm_render1 :
    ∀ h : Nat, h < 10 → ∀ m : Nat, m < 60 →
      parse_hhmm (String.mk (digitChar h :: ':' :: pad2 m)) =
        some ((h : Int), (m : Int)) := by
  decide

theorem intervalStep_seed (en : Bool) (ws we : String) (every dflt : Int)
    (now : Instant) (t : Int) (hen : en = true)
    (hw : in_window now ws we = true) :
    intervalStep en ws we every 0 dflt now t = (false, true, t) := by
  simp [intervalStep, hen, hw]

theorem intervalStep_fire (en : Bool) (ws we : String)
    (every lastTs dflt : Int) (now : Instant) (t : Int) (hen : en = true)
    (hw : in_window now ws we = true) (h0 : lastTs ≠ 0)
    (he : (if every = 0 then dflt else every) * 60 ≤ t - lastTs) :
    intervalStep en ws we every lastTs dflt now t = (true, true, t) := by
  have he2 : (if every = 0 then dflt * 60 else every * 60) ≤ t - lastTs := by
    rw [← ite_mul]
    exact he
  simp [intervalStep, hen, hw, h0, he2]

theorem intervalStep_hold (en : Bool) (ws we : String)
    (every lastTs dflt : Int) (now : Instant) (t : Int) (h0 : lastTs ≠ 0)
    (he : ¬ ((if every = 0 then dflt else every) * 60 ≤ t - lastTs)) :
    intervalStep en ws we every lastTs dflt now t =
      (false, false, lastTs) := by
  have he2 : t - lastTs < (if every = 0 then dflt * 60 else every * 60) := by
    rw [← ite_mul]
    exact lt_of_not_le he
  cases en with
  | false => simp [intervalStep]
  | true =>
    by_cases hw : in_window now ws we = true <;>
      simp [intervalStep, hw, h0, he2]

theorem intervalStep_outside (en : Bool) (ws we : String)
    (every lastTs dflt : Int) (now : Instant) (t : Int)
    (hw : in_window now ws we = false) :
    intervalStep en ws we every lastTs dflt now t =
      (false, false, lastTs) := by
  cases en <;> simp [intervalStep, hw]

theorem intervalStep_fired_imp (en : Bool) (ws we : String)
    (every lastTs dflt : Int) (now : Instant) (t : Int)
    (h : (intervalStep en ws we every lastTs dflt now t).1 = true) :
    intervalStep en ws we every lastTs dflt now t = (true, true, t) := by
  cases en with
  | false => simp [intervalStep] at h
  | true =>
    by_cases hw : in_window now ws we = true
    · by_cases h0 : lastTs = 0
      · subst h0; simp [intervalStep, hw] at h
      · by_cases he :
            (if every = 0 then dflt else every) * 60 ≤ t - lastTs
        · exact intervalStep_fire _ _ _ _ _ _ _ _ rfl hw h0 he
        · rw [intervalStep_hold _ _ _ _ _ _ _ _ h0 he] at h
          simp at h
    · rw [intervalStep_outside _ _ _ _ _ _ _ _
        (Bool.not_eq_true _ ▸ hw : in_window now ws we = false)] at h
      simp at h

theorem processUser_disabled (u : User) (now : Instant) (t : Int)
    (wd : Nat) (send : String → Bool) (hu : u.enabled = false) :
    processUser u now t wd send = (u, []) := by
  rw [processUser, if_neg]
  simp [hu]

theorem water_no_early_fire (u : User) (now : Instant) (t : Int)
    (wd : Nat) (send : String → Bool) (h0 : u.last_water_ts ≠ 0)
    (he : ¬ ((if u.water_every_min = 0 then 60 else u.water_every_min)
      * 60 ≤ t - u.last_water_ts)) :
    countKey "water" (processUser u now t wd send).2 = 0 := by
  by_cases hu : u.enabled = true
  · rw [processUser_count _ _ _ _ _ _ hu,
      intervalStep_hold _ _ _ _ _ _ _ _ h0 he]
    simp
  · rw [processUser_disabled _ _ _ _ _ (Bool.not_eq_true _ ▸ hu)]
    simp [countKey]

theorem break_no_early_fire (u : User) (now : Instant) (t : Int)
    (wd : Nat) (send : String → Bool) (h0 : u.last_break_ts ≠ 0)
    (he : ¬ ((if u.break_every_min = 0 then 120 else u.break_every_min)
      * 60 ≤ t - u.last_break_ts)) :
    countKey "break" (processUser u now t wd send).2 = 0 := by
  by_cases hu : u.enabled = true
  · rw [processUser_count _ _ _ _ _ _ hu,
      intervalStep_hold _ _ _ _ _ _ _ _ h0 he]
    simp
  · rw [processUser_disabled _ _ _ _ _ (Bool.not_eq_true _ ▸ hu)]
    simp [countKey]

theorem eye_no_early_fire (u : User) (now : Instant) (t : Int)
    (wd : Nat) (send : String → Bool) (h0 : u.last_eye_ts ≠ 0)
    (he : ¬ ((if u.eye_every_min = 0 then 30 else u.eye_every_min)
      * 60 ≤ t - u.last_eye_ts)) :
    countKey "eye" (processUser u now t wd send).2 = 0 := by
  by_cases hu : u.enabled = true
  · rw [processUser_count _ _ _ _ _ _ hu,
      intervalStep_hold _ _ _ _ _ _ _ _ h0 he]
    simp
  · rw [processUser_disabled _ _ _ _ _ (Bool.not_eq_true _ ▸ hu)]
    simp [countKey]

theorem posture_no_early_fire (u : User) (now : Instant) (t : Int)
    (wd : Nat) (send : String → Bool) (h0 : u.last_posture_ts ≠ 0)
    (he : ¬ ((if u.posture_every_min = 0 then 45 else u.posture_every_min)
      * 60 ≤ t - u.last_posture_ts)) :
    countKey "posture" (processUser u now t wd send).2 = 0 := by
  by_cases hu : u.enabled = true
  · rw [processUser_count _ _ _ _ _ _ hu,
      intervalStep_hold _ _ _ _ _ _ _ _ h0 he]
    simp
  · rw [processUser_disabled _ _ _ _ _ (Bool.not_eq_true _ ▸ hu)]
    simp [countKey]

theorem splitOnColon_ne_nil (l : List Char) : splitOnColon l ≠ [] := by
  cases l with
  | nil => simp [splitOnColon]
  | cons c rest =>
    simp only [splitOnColon]
    by_cases hc : (c == ':') = true
    · simp [hc]
    · cases hrec : splitOnColon rest with
      | nil => simp [hc, hrec]
      | cons a b => simp [hc, hrec]

theorem splitOnColon_length (l : List Char) :
    (splitOnColon l).length = l.count ':' + 1 := by
  induction l with
  | nil => rfl
  | cons c rest ih =>
    simp only [splitOnColon]
    by_cases hc : (c == ':') = true
    · have hceq : c = ':' := by simpa using hc
      simp [hc, hceq, List.count_cons, ih]
    · cases hrec : splitOnColon rest with
      | nil => exact absurd hrec (splitOnColon_ne_nil rest)
      | cons a b =>
        have hne : ¬ (c = ':') := by simpa using hc
        rw [hrec] at ih
        simp [hc, List.count_cons, hne, ← ih]

theorem parse_hhmm_sep (s : String)
    (h : (stripWs s.data).count ':' ≠ 1) : parse_hhmm s = none := by
  have hl : (splitOnColon (stripWs s.data)).length ≠ 2 := by
    rw [splitOnColon_length]
    omega
  cases h1 : splitOnColon (stripWs s.data) with
  | nil => simp [parse_hhmm, h1]
  | cons a l2 =>
    cases l2 with
    | nil => simp [parse_hhmm, h1]
    | cons b l3 =>
      cases l3 with
      | nil => exact absurd (by simp [h1] : _ = 2) hl
      | cons c l4 => simp [parse_hhmm, h1]

/-- Stated from the spec's words for the shape clause of
`parseClockTime`: exactly the strings of shape `H:MM` or `HH:MM` built
from decimal digits whose values are in range. -/
def specShapeHHMM (s : String) : Bool :=
  match s.data with
  | [h1, c, m1, m2] =>
    (c == ':') && h1.isDigit && m1.isDigit && m2.isDigit &&
      decide ((m1.toNat - 48) * 10 + (m2.toNat - 48) ≤ 59)
  | [h1, h2, c, m1, m2] =>
    (c == ':') && h1.isDigit && h2.isDigit && m1.isDigit && m2.isDigit &&
      decide ((h1.toNat - 48) * 10 + (h2.toNat - 48) ≤ 23) &&
      decide ((m1.toNat - 48) * 10 + (m2.toNat - 48) ≤ 59)
  | _ => false

-- claim theorems ---------------------------------------------------------

/-- C1: the claim's consequent fails on the code.  With the default
configuration (`exercise_time = dinner_time = "18:30"`, both enabled)
the first tick at 18:30 fires both events, but `mark_fired` for dinner
rebuilds the stored `last_fire` map from the stale tick snapshot, so
the exercise stamp is erased (the stored map holds only the dinner
stamp); a second tick 20 seconds later — in the same calendar minute —
dispatches the exercise event again. -/
theorem exercise_refires_in_same_minute :
    countKey "exercise"
        (processUser defaultUser ⟨2025, 3, 1, 18, 30, 0, 0⟩ 1000 5
          (fun _ => true)).2 = 1 ∧
    (processUser defaultUser ⟨2025, 3, 1, 18, 30, 0, 0⟩ 1000 5
        (fun _ => true)).1.last_fire =
      [("dinner", "2025-03-01 18:30")] ∧
    key_at ⟨2025, 3, 1, 18, 30, 0, 0⟩ =
      key_at ⟨2025, 3, 1, 18, 30, 20, 0⟩ ∧
    countKey "exercise"
        (processUser
          (processUser defaultUser ⟨2025, 3, 1, 18, 30, 0, 0⟩ 1000 5
            (fun _ => true)).1
          ⟨2025, 3, 1, 18, 30, 20, 0⟩ 1020 5 (fun _ => true)).2 = 1 := by
  exact ⟨by decide, by decide, by decide, by decide⟩

/-- C2 (counterexample): the window test is CLOSED at the end bound,
not half-open.  At the instant 22:00:00.000000 — whose time of day
equals the configured window end "22:00" — the water event with an
hour-old baseline does dispatch, contradicting the claim that an
instant equal to `window_end` must not dispatch. -/
theorem water_fires_at_window_end :
    todMicro (⟨2025, 3, 1, 22, 0, 0, 0⟩ : Instant) =
      todMicro (replaceHM ⟨2025, 3, 1, 22, 0, 0, 0⟩ 22 0) ∧
    countKey "water"
        (processUser { defaultUser with last_water_ts := 1000 }
          ⟨2025, 3, 1, 22, 0, 0, 0⟩ 4600 5 (fun _ => true)).2 = 1 := by
  exact ⟨by decide, by decide⟩

/-- C2 (amended): for an enabled interval category (water shown
end-to-end; the four categories share `intervalStep`), a tick
dispatches exactly when the category is enabled, the instant is inside
the window, the baseline is non-zero and the elapsed time reaches
`interval_minutes * 60` seconds — where window membership is CLOSED at
both bounds: an instant whose time of day equals the window end (with
`start <= end`) is inside and may dispatch. -/
theorem interval_fire_conditions :
    (∀ (u : User) (now : Instant) (t : Int) (wd : Nat)
      (send : String → Bool), u.enabled = true →
      countKey "water" (processUser u now t wd send).2 =
        (if (intervalStep u.water_enabled u.water_window_start
              u.water_window_end u.water_every_min u.last_water_ts 60
              now t).1 then 1 else 0)) ∧
    (∀ (en : Bool) (ws we : String) (every lastTs dflt : Int)
      (now : Instant) (t : Int),
      (intervalStep en ws we every lastTs dflt now t).1 = true →
      en = true ∧ in_window now ws we = true ∧ lastTs ≠ 0 ∧
        (if every = 0 then dflt else every) * 60 ≤ t - lastTs) ∧
    (∀ (now : Instant) (s e : String) (sh sm eh em : Int),
      parse_hhmm s = some (sh, sm) → parse_hhmm e = some (eh, em) →
      todMicro now = todMicro (replaceHM now eh.toNat em.toNat) →
      todMicro (replaceHM now sh.toNat sm.toNat) ≤ todMicro now →
      in_window now s e = true) := by
  refine ⟨?_, ?_, ?_⟩
  · intro u now t wd send hu
    rw [processUser_count _ _ _ _ _ _ hu]
    simp
  · intro en ws we every lastTs dflt now t h
    cases en with
    | false => simp [intervalStep] at h
    | true =>
      by_cases hw : in_window now ws we = true
      · by_cases h0 : lastTs = 0
        · subst h0
          rw [intervalStep_seed _ _ _ _ _ _ _ rfl hw] at h
          simp at h
        · by_cases he :
              (if every = 0 then dflt else every) * 60 ≤ t - lastTs
          · exact ⟨rfl, hw, h0, he⟩
          · rw [intervalStep_hold _ _ _ _ _ _ _ _ h0 he] at h
            simp at h
      · rw [intervalStep_outside _ _ _ _ _ _ _ _
          (Bool.not_eq_true _ ▸ hw)] at h
        simp at h
  · intro now s e sh sm eh em hs he heq hle
    rw [in_window_eq now s e sh sm eh em hs he]
    by_cases hw : todMicro (replaceHM now eh.toNat em.toNat) ≤
        todMicro (replaceHM now sh.toNat sm.toNat)
    · simp only [if_pos hw]
      simp [heq]
    · simp only [if_neg hw]
      simp [← heq, hle]

/-- Witness for C2 (amended) at concrete inputs. -/
theorem interval_fire_conditions_witness :
    countKey "water"
        (processUser defaultUser ⟨2025, 3, 1, 9, 0, 0, 0⟩ 500 2
          (fun _ => true)).2 =
      (if (intervalStep defaultUser.water_enabled
            defaultUser.water_window_start defaultUser.water_window_end
            defaultUser.water_every_min defaultUser.last_water_ts 60
            ⟨2025, 3, 1, 9, 0, 0, 0⟩ 500).1 then 1 else 0) ∧
    in_window ⟨2025, 3, 1, 22, 0, 0, 0⟩ "08:00" "22:00" = true :=
  ⟨interval_fire_conditions.1 defaultUser ⟨2025, 3, 1, 9, 0, 0, 0⟩ 500 2
      (fun _ => true) rfl,
   interval_fire_conditions.2.2 ⟨2025, 3, 1, 22, 0, 0, 0⟩ "08:00"
      "22:00" 8 0 22 0 (by decide) (by decide) (by decide) (by decide)⟩

/-- C4 (counterexample): an exception for the first user of a tick
skips the remaining users of that same tick — the handler wraps the
whole sweep, not each user — although the loop itself goes on and the
next tick evaluates users again. -/
theorem tick_abort_skips_remaining_users :
    (scheduler_tick
      (fun n : Nat => if n = 0 then Except.error "boom" else Except.ok n)
      [0, 1]).1 = [] ∧
    scheduler_run
      (fun n : Nat => if n = 0 then Except.error "boom" else Except.ok n)
      [[0, 1], [1]] = [[], [1]] := by
  exact ⟨rfl, rfl⟩

/-- C4 (amended): an exception while evaluating one user is caught at
the tick boundary: the users before it were evaluated, the users after
it are skipped for that tick, and the scheduler loop is not
terminated — every tick of the run still executes. -/
theorem tick_exception_isolated :
    (∀ (α β ε : Type) (f : α → Except ε β) (pre post : List α) (x : α)
      (e : ε), f x = Except.error e →
      (∀ a ∈ pre, ∃ b, f a = Except.ok b) →
      (scheduler_tick f (pre ++ x :: post)).1.length = pre.length ∧
      (scheduler_tick f (pre ++ x :: post)).2 = some e) ∧
    (∀ (α β ε : Type) (f : α → Except ε β) (ticks : List (List α)),
      (scheduler_run f ticks).length = ticks.length) := by
  constructor
  · intro α β ε f pre post x e hx hpre
    induction pre with
    | nil => simp [scheduler_tick, hx]
    | cons a as ih =>
      obtain ⟨b, hb⟩ := hpre a (List.mem_cons_self a as)
      have ih2 := ih (fun a2 ha2 => hpre a2 (List.mem_cons_of_mem _ ha2))
      simp [scheduler_tick, hb, ih2.1, ih2.2]
  · intro α β ε f ticks
    simp [scheduler_run]

/-- Witness for C4 (amended): concrete tick `[5, 0, 7]` where user `0`
raises. -/
theorem tick_exception_isolated_witness :
    (scheduler_tick
      (fun n : Nat => if n = 0 then Except.error "boom" else Except.ok n)
      ([5] ++ 0 :: [7])).1.length = 1 ∧
    (scheduler_tick
      (fun n : Nat => if n = 0 then Except.error "boom" else Except.ok n)
      ([5] ++ 0 :: [7])).2 = some "boom" :=
  tick_exception_isolated.1 Nat Nat String
    (fun n : Nat => if n = 0 then Except.error "boom" else Except.ok n)
    [5] [7] 0 "boom" rfl
    (by
      intro a ha
      simp only [List.mem_singleton] at ha
      subst ha
      exact ⟨5, rfl⟩)

/-- C7: `in_window` returns false when either bound fails to parse;
for valid bounds, membership is decided purely by time-of-day
comparison against the today-anchored bounds — wrap rule
`now >= start OR now <= end` when `end <= start` (including equal),
inclusive `start <= now <= end` otherwise; and for the window
22:00–06:00 the times 23:30 and 02:00 are inside while 12:00 is
outside. -/
theorem in_window_characterization :
    (∀ (now : Instant) (s e : String),
      parse_hhmm s = none ∨ parse_hhmm e = none →
      in_window now s e = false) ∧
    (∀ (now : Instant) (s e : String) (sh sm eh em : Int),
      parse_hhmm s = some (sh, sm) → parse_hhmm e = some (eh, em) →
      in_window now s e =
        (if todMicro (replaceHM now eh.toNat em.toNat) ≤
             todMicro (replaceHM now sh.toNat sm.toNat) then
          decide (todMicro (replaceHM now sh.toNat sm.toNat) ≤
              todMicro now) ||
            decide (todMicro now ≤
              todMicro (replaceHM now eh.toNat em.toNat))
        else
          decide (todMicro (replaceHM now sh.toNat sm.toNat) ≤
              todMicro now) &&
            decide (todMicro now ≤
              todMicro (replaceHM now eh.toNat em.toNat)))) ∧
    in_window ⟨2025, 3, 1, 23, 30, 0, 0⟩ "22:00" "06:00" = true ∧
    in_window ⟨2025, 3, 1, 2, 0, 0, 0⟩ "22:00" "06:00" = true ∧
    in_window ⟨2025, 3, 1, 12, 0, 0, 0⟩ "22:00" "06:00" = false := by
  refine ⟨?_, ?_, by decide, by decide, by decide⟩
  · intro now s e h
    exact in_window_invalid now s e h
  · intro now s e sh sm eh em hs he
    exact in_window_eq now s e sh sm eh em hs he

/-- Witness for C7 at concrete inputs (an invalid bound, and the
wrapping window 22:00–06:00 at 23:30). -/
theorem in_window_characterization_witness :
    in_window ⟨2025, 3, 1, 12, 0, 0, 0⟩ "25:00" "06:00" = false ∧
    in_window ⟨2025, 3, 1, 23, 30, 0, 0⟩ "22:00" "06:00" =
      (if todMicro (replaceHM ⟨2025, 3, 1, 23, 30, 0, 0⟩ (6 : Int).toNat
             ((0 : Int).toNat)) ≤
           todMicro (replaceHM ⟨2025, 3, 1, 23, 30, 0, 0⟩
             ((22 : Int).toNat) ((0 : Int).toNat)) then
        decide (todMicro (replaceHM ⟨2025, 3, 1, 23, 30, 0, 0⟩
            ((22 : Int).toNat) ((0 : Int).toNat)) ≤
            todMicro (⟨2025, 3, 1, 23, 30, 0, 0⟩ : Instant)) ||
          decide (todMicro (⟨2025, 3, 1, 23, 30, 0, 0⟩ : Instant) ≤
            todMicro (replaceHM ⟨2025, 3, 1, 23, 30, 0, 0⟩
              ((6 : Int).toNat) ((0 : Int).toNat)))
      else
        decide (todMicro (replaceHM ⟨2025, 3, 1, 23, 30, 0, 0⟩
            ((22 : Int).toNat) ((0 : Int).toNat)) ≤
            todMicro (⟨2025, 3, 1, 23, 30, 0, 0⟩ : Instant)) &&
          decide (todMicro (⟨2025, 3, 1, 23, 30, 0, 0⟩ : Instant) ≤
            todMicro (replaceHM ⟨2025, 3, 1, 23, 30, 0, 0⟩
              ((6 : Int).toNat) ((0 : Int).toNat)))) :=
  ⟨in_window_characterization.1 ⟨2025, 3, 1, 12, 0, 0, 0⟩ "25:00"
      "06:00" (Or.inl (by decide)),
   in_window_characterization.2.1 ⟨2025, 3, 1, 23, 30, 0, 0⟩ "22:00"
      "06:00" 22 0 6 0 (by decide) (by decide)⟩

/-- C9 (counterexample): `parse_hhmm` accepts `"7: 5"` — Python's
`int` strips the inner space — although that string is not of shape
`H:MM` or `HH:MM`. -/
theorem parse_accepts_beyond_shape :
    parse_hhmm "7: 5" = some (7, 5) ∧ specShapeHHMM "7: 5" = false := by
  exact ⟨by decide, by decide⟩

/-- C9 (amended): `parse_hhmm` never raises (it is a total function
into `Option`); every accepted string yields `0 <= h <= 23` and
`0 <= m <= 59`; every in-range `HH:MM` and `H:MM` digit string is
accepted; a stripped string whose colon count differs from one is
invalid.  Beyond the claimed shapes, each colon-separated field is read
by Python `int`, which also tolerates surrounding whitespace, a sign
and inner underscores. -/
theorem parse_hhmm_amended :
    (∀ (s : String) (h m : Int), parse_hhmm s = some (h, m) →
      0 ≤ h ∧ h ≤ 23 ∧ 0 ≤ m ∧ m ≤ 59) ∧
    (∀ h : Nat, h < 24 → ∀ m : Nat, m < 60 →
      parse_hhmm (hhmmStr h m) = some ((h : Int), (m : Int))) ∧
    (∀ h : Nat, h < 10 → ∀ m : Nat, m < 60 →
      parse_hhmm (String.mk (digitChar h :: ':' :: pad2 m)) =
        some ((h : Int), (m : Int))) ∧
    (∀ s : String, (stripWs s.data).count ':' ≠ 1 →
      parse_hhmm s = none) := by
  refine ⟨?_, parse_hhmm_render, parse_hhmm_render1, parse_hhmm_sep⟩
  intro s h m hp
  cases h1 : splitOnColon (stripWs s.data) with
  | nil => simp [parse_hhmm, h1] at hp
  | cons a l2 =>
    cases l2 with
    | nil => simp [parse_hhmm, h1] at hp
    | cons b l3 =>
      cases l3 with
      | cons c l4 => simp [parse_hhmm, h1] at hp
      | nil =>
        simp only [parse_hhmm, h1] at hp
        cases hpa : pyIntChars a with
        | none => simp [hpa] at hp
        | some hv =>
          cases hpb : pyIntChars b with
          | none => simp [hpa, hpb] at hp
          | some mv =>
            simp only [hpa, hpb] at hp
            by_cases hr : 0 ≤ hv ∧ hv ≤ 23 ∧ 0 ≤ mv ∧ mv ≤ 59
            · rw [if_pos hr] at hp
              have h2 := Option.some.inj hp
              rw [Prod.ext_iff] at h2
              obtain ⟨e1, e2⟩ := h2
              subst e1
              subst e2
              exact hr
            · rw [if_neg hr] at hp
              cases hp

/-- Witness for C9 (amended) at concrete inputs. -/
theorem parse_hhmm_amended_witness :
    (0 ≤ (7 : Int) ∧ (7 : Int) ≤ 23 ∧ 0 ≤ (30 : Int) ∧
      (30 : Int) ≤ 59) ∧
    parse_hhmm (hhmmStr 7 30) = some (7, 30) ∧
    parse_hhmm "1:5:9" = none :=
  ⟨parse_hhmm_amended.1 "07:30" 7 30 (by decide),
   parse_hhmm_amended.2.1 7 (by decide) 30 (by decide),
   parse_hhmm_amended.2.2.2 "1:5:9" (by decide)⟩

/-- C10: a point event is due only on exact string equality between
the raw configured field and the zero-padded `strftime "%H:%M"`
rendering of the instant; hence a configured time that `parse_hhmm`
accepts but that differs from the zero-padded rendering of its own
value (such as "7:00" or "07:5") never dispatches at any instant and
leaves the state untouched. -/
theorem point_exact_string_match :
    (∀ (snap : User) (now : Instant) (send : String → Bool)
      (st : User × List (String × Bool)) (gate : Bool)
      (cfg key : String) (h m : Int),
      parse_hhmm cfg = some (h, m) → cfg ≠ hhmmStr h.toNat m.toNat →
      now.hour < 24 → now.minute < 60 →
      firePoint snap now send st gate cfg key = st) ∧
    parse_hhmm "7:00" = some (7, 0) ∧ "7:00" ≠ hhmmStr 7 0 ∧
    parse_hhmm "07:5" = some (7, 5) ∧ "07:5" ≠ hhmmStr 7 5 := by
  refine ⟨?_, by decide, by decide, by decide, by decide⟩
  intro snap now send st gate cfg key h m hp hne hh hm
  by_cases hc : pointCond snap now gate cfg key = true
  · exfalso
    have hc2 := hc
    simp only [pointCond, Bool.and_eq_true] at hc2
    obtain ⟨⟨hg, hmatch⟩, hsf⟩ := hc2
    have hcfg : hhmmStr now.hour now.minute = cfg := eq_of_beq hmatch
    rw [← hcfg] at hp
    rw [parse_hhmm_render now.hour hh now.minute hm] at hp
    have h2 := Option.some.inj hp
    simp only [Prod.mk.injEq] at h2
    obtain ⟨e1, e2⟩ := h2
    apply hne
    rw [← hcfg, ← e1, ← e2]
    simp
  · simp [firePoint, hc]

/-- Witness for C10: the default user configured with "7:00" as wake
time never fires at 07:00. -/
theorem point_exact_string_match_witness :
    firePoint defaultUser ⟨2025, 3, 1, 7, 0, 0, 0⟩ (fun _ => true)
      (defaultUser, []) true "7:00" "wake" = (defaultUser, []) :=
  point_exact_string_match.1 defaultUser ⟨2025, 3, 1, 7, 0, 0, 0⟩
    (fun _ => true) (defaultUser, []) true "7:00" "wake" 7 0 (by decide)
    (by decide) (by decide) (by decide)

/-- C3: for each of the four interval categories of an enabled user,
a tick inside the window with a zero baseline does not dispatch and
writes the tick's unix time as the new baseline; a tick inside the
window whose elapsed time since a non-zero baseline reaches the
effective interval dispatches exactly once and advances the baseline
to that tick's unix time. -/
theorem interval_baseline_seeding :
    (∀ (u : User) (now : Instant) (t : Int) (wd : Nat)
      (send : String → Bool), u.enabled = true →
      u.water_enabled = true →
      in_window now u.water_window_start u.water_window_end = true →
      u.last_water_ts = 0 →
      countKey "water" (processUser u now t wd send).2 = 0 ∧
        (processUser u now t wd send).1.last_water_ts = t) ∧
    (∀ (u : User) (now : Instant) (t : Int) (wd : Nat)
      (send : String → Bool), u.enabled = true →
      u.water_enabled = true →
      in_window now u.water_window_start u.water_window_end = true →
      u.last_water_ts ≠ 0 →
      (if u.water_every_min = 0 then 60 else u.water_every_min) * 60 ≤
        t - u.last_water_ts →
      countKey "water" (processUser u now t wd send).2 = 1 ∧
        (processUser u now t wd send).1.last_water_ts = t) ∧
    (∀ (u : User) (now : Instant) (t : Int) (wd : Nat)
      (send : String → Bool), u.enabled = true →
      u.break_enabled = true →
      in_window now u.break_window_start u.break_window_end = true →
      u.last_break_ts = 0 →
      countKey "break" (processUser u now t wd send).2 = 0 ∧
        (processUser u now t wd send).1.last_break_ts = t) ∧
    (∀ (u : User) (now : Instant) (t : Int) (wd : Nat)
      (send : String → Bool), u.enabled = true →
      u.break_enabled = true →
      in_window now u.break_window_start u.break_window_end = true →
      u.last_break_ts ≠ 0 →
      (if u.break_every_min = 0 then 120 else u.break_every_min) * 60 ≤
        t - u.last_break_ts →
      countKey "break" (processUser u now t wd send).2 = 1 ∧
        (processUser u now t wd send).1.last_break_ts = t) ∧
    (∀ (u : User) (now : Instant) (t : Int) (wd : Nat)
      (send : String → Bool), u.enabled = true →
      u.eye_enabled = true →
      in_window now u.eye_window_start u.eye_window_end = true →
      u.last_eye_ts = 0 →
      countKey "eye" (processUser u now t wd send).2 = 0 ∧
        (processUser u now t wd send).1.last_eye_ts = t) ∧
    (∀ (u : User) (now : Instant) (t : Int) (wd : Nat)
      (send : String → Bool), u.enabled = true →
      u.eye_enabled = true →
      in_window now u.eye_window_start u.eye_window_end = true →
      u.last_eye_ts ≠ 0 →
      (if u.eye_every_min = 0 then 30 else u.eye_every_min) * 60 ≤
        t - u.last_eye_ts →
      countKey "eye" (processUser u now t wd send).2 = 1 ∧
        (processUser u now t wd send).1.last_eye_ts = t) ∧
    (∀ (u : User) (now : Instant) (t : Int) (wd : Nat)
      (send : String → Bool), u.enabled = true →
      u.posture_enabled = true →
      in_window now u.posture_window_start u.posture_window_end = true →
      u.last_posture_ts = 0 →
      countKey "posture" (processUser u now t wd send).2 = 0 ∧
        (processUser u now t wd send).1.last_posture_ts = t) ∧
    (∀ (u : User) (now : Instant) (t : Int) (wd : Nat)
      (send : String → Bool), u.enabled = true →
      u.posture_enabled = true →
      in_window now u.posture_window_start u.posture_window_end = true →
      u.last_posture_ts ≠ 0 →
      (if u.posture_every_min = 0 then 45 else u.posture_every_min) * 60
        ≤ t - u.last_posture_ts →
      countKey "posture" (processUser u now t wd send).2 = 1 ∧
        (processUser u now t wd send).1.last_posture_ts = t) := by
  refine ⟨?_, ?_, ?_, ?_, ?_, ?_, ?_, ?_⟩
  · intro u now t wd send hu hen hw h0
    constructor
    · rw [processUser_count _ _ _ _ _ _ hu, h0,
        intervalStep_seed _ _ _ _ _ _ _ hen hw]
      simp
    · rw [processUser_water_ts _ _ _ _ _ hu, h0,
        intervalStep_seed _ _ _ _ _ _ _ hen hw]
      simp
  · intro u now t wd send hu hen hw h0 he
    constructor
    · rw [processUser_count _ _ _ _ _ _ hu,
        intervalStep_fire _ _ _ _ _ _ _ _ hen hw h0 he]
      simp
    · rw [processUser_water_ts _ _ _ _ _ hu,
        intervalStep_fire _ _ _ _ _ _ _ _ hen hw h0 he]
      simp
  · intro u now t wd send hu hen hw h0
    constructor
    · rw [processUser_count _ _ _ _ _ _ hu, h0,
        intervalStep_seed _ _ _ _ _ _ _ hen hw]
      simp
    · rw [processUser_break_ts _ _ _ _ _ hu, h0,
        intervalStep_seed _ _ _ _ _ _ _ hen hw]
      simp
  · intro u now t wd send hu hen hw h0 he
    constructor
    · rw [processUser_count _ _ _ _ _ _ hu,
        intervalStep_fire _ _ _ _ _ _ _ _ hen hw h0 he]
      simp
    · rw [processUser_break_ts _ _ _ _ _ hu,
        intervalStep_fire _ _ _ _ _ _ _ _ hen hw h0 he]
      simp
  · intro u now t wd send hu hen hw h0
    constructor
    · rw [processUser_count _ _ _ _ _ _ hu, h0,
        intervalStep_seed _ _ _ _ _ _ _ hen hw]
      simp
    · rw [processUser_eye_ts _ _ _ _ _ hu, h0,
        intervalStep_seed _ _ _ _ _ _ _ hen hw]
      simp
  · intro u now t wd send hu hen hw h0 he
    constructor
    · rw [processUser_count _ _ _ _ _ _ hu,
        intervalStep_fire _ _ _ _ _ _ _ _ hen hw h0 he]
      simp
    · rw [processUser_eye_ts _ _ _ _ _ hu,
        intervalStep_fire _ _ _ _ _ _ _ _ hen hw h0 he]
      simp
  · intro u now t wd send hu hen hw h0
    constructor
    · rw [processUser_count _ _ _ _ _ _ hu, h0,
        intervalStep_seed _ _ _ _ _ _ _ hen hw]
      simp
    · rw [processUser_posture_ts _ _ _ _ _ hu, h0,
        intervalStep_seed _ _ _ _ _ _ _ hen hw]
      simp
  · intro u now t wd send hu hen hw h0 he
    constructor
    · rw [processUser_count _ _ _ _ _ _ hu,
        intervalStep_fire _ _ _ _ _ _ _ _ hen hw h0 he]
      simp
    · rw [processUser_posture_ts _ _ _ _ _ hu,
        intervalStep_fire _ _ _ _ _ _ _ _ hen hw h0 he]
      simp

/-- Witness for C3: the default user (water baseline 0) seeds at
09:00 without dispatching; an hour-plus later the seeded user
dispatches exactly once. -/
theorem interval_baseline_seeding_witness :
    (countKey "water"
        (processUser defaultUser ⟨2025, 3, 1, 9, 0, 0, 0⟩ 1740787200 5
          (fun _ => true)).2 = 0 ∧
      (processUser defaultUser ⟨2025, 3, 1, 9, 0, 0, 0⟩ 1740787200 5
        (fun _ => true)).1.last_water_ts = 1740787200) ∧
    (countKey "water"
        (processUser { defaultUser with last_water_ts := 1740787200 }
          ⟨2025, 3, 1, 10, 1, 0, 0⟩ 1740790860 5
          (fun _ => true)).2 = 1 ∧
      (processUser { defaultUser with last_water_ts := 1740787200 }
        ⟨2025, 3, 1, 10, 1, 0, 0⟩ 1740790860 5
        (fun _ => true)).1.last_water_ts = 1740790860) :=
  ⟨interval_baseline_seeding.1 defaultUser ⟨2025, 3, 1, 9, 0, 0, 0⟩
      1740787200 5 (fun _ => true) rfl rfl (by decide) rfl,
   interval_baseline_seeding.2.1
      { defaultUser with last_water_ts := 1740787200 }
      ⟨2025, 3, 1, 10, 1, 0, 0⟩ 1740790860 5 (fun _ => true) rfl rfl
      (by decide) (by decide) (by decide)⟩

/-- C5 (counterexample): an interval configured as zero is not
never-due (it falls back to the 60-minute water default and fires an
hour later), and a negative interval is not never-due either (it fires
on the next tick). -/
theorem nonpositive_interval_dispatches :
    countKey "water"
        (processUser
          { defaultUser with water_every_min := -5, last_water_ts := 1000 }
          ⟨2025, 3, 1, 9, 0, 0, 0⟩ 1001 5 (fun _ => true)).2 = 1 ∧
    countKey "water"
        (processUser
          { defaultUser with water_every_min := 0, last_water_ts := 1000 }
          ⟨2025, 3, 1, 9, 0, 0, 0⟩ 4600 5 (fun _ => true)).2 = 1 := by
  exact ⟨by decide, by decide⟩

/-- C5 (amended): a malformed time string makes the event never due
without raising: an unparsable point time never matches the rendered
clock string and leaves the state unchanged, and an unparsable window
bound makes the interval branch a no-op.  A zero interval however
falls back to the category default, and a negative interval is due on
every tick inside the window once a baseline exists.  Other events of
the same user are still evaluated normally — the sleep event's
dispatch count depends only on its own condition. -/
theorem malformed_config_behavior :
    (∀ (snap : User) (now : Instant) (send : String → Bool)
      (st : User × List (String × Bool)) (gate : Bool)
      (cfg key : String),
      parse_hhmm cfg = none → now.hour < 24 → now.minute < 60 →
      firePoint snap now send st gate cfg key = st) ∧
    (∀ (en : Bool) (ws we : String) (every lastTs dflt : Int)
      (now : Instant) (t : Int),
      parse_hhmm ws = none ∨ parse_hhmm we = none →
      intervalStep en ws we every lastTs dflt now t =
        (false, false, lastTs)) ∧
    (∀ (en : Bool) (ws we : String) (lastTs dflt : Int) (now : Instant)
      (t : Int),
      intervalStep en ws we 0 lastTs dflt now t =
        intervalStep en ws we dflt lastTs dflt now t) ∧
    (∀ (en : Bool) (ws we : String) (every lastTs dflt : Int)
      (now : Instant) (t : Int), every < 0 → en = true →
      in_window now ws we = true → lastTs ≠ 0 → lastTs ≤ t →
      (intervalStep en ws we every lastTs dflt now t).1 = true) ∧
    (∀ (u : User) (now : Instant) (t : Int) (wd : Nat)
      (send : String → Bool), u.enabled = true →
      countKey "sleep" (processUser u now t wd send).2 =
        (if pointCond u now true u.sleep_time "sleep" then 1
         else 0)) := by
  refine ⟨?_, ?_, ?_, ?_, ?_⟩
  · intro snap now send st gate cfg key hp hh hm
    by_cases hc : pointCond snap now gate cfg key = true
    · exfalso
      have hc2 := hc
      simp only [pointCond, Bool.and_eq_true] at hc2
      obtain ⟨⟨hg, hmatch⟩, hsf⟩ := hc2
      have hcfg : hhmmStr now.hour now.minute = cfg := eq_of_beq hmatch
      rw [← hcfg, parse_hhmm_render now.hour hh now.minute hm] at hp
      cases hp
    · simp [firePoint, hc]
  · intro en ws we every lastTs dflt now t h
    exact intervalStep_outside _ _ _ _ _ _ _ _
      (in_window_invalid now ws we h)
  · intro en ws we lastTs dflt now t
    cases en <;> simp [intervalStep]
  · intro en ws we every lastTs dflt now t hneg hen hw h0 hle
    have he : (if every = 0 then dflt else every) * 60 ≤ t - lastTs := by
      rw [if_neg (by omega : ¬ every = 0)]
      omega
    rw [intervalStep_fire _ _ _ _ _ _ _ _ hen hw h0 he]
  · intro u now t wd send hu
    rw [processUser_count _ _ _ _ _ _ hu]
    simp

/-- Witness for C5 (amended): an unparsable wake time "99:00" is a
no-op at 07:00, and the sleep count formula holds for the default
user. -/
theorem malformed_config_behavior_witness :
    firePoint defaultUser ⟨2025, 3, 1, 7, 0, 0, 0⟩ (fun _ => true)
        (defaultUser, []) true "99:00" "wake" = (defaultUser, []) ∧
    countKey "sleep"
        (processUser defaultUser ⟨2025, 3, 1, 7, 0, 0, 0⟩ 100 5
          (fun _ => true)).2 =
      (if pointCond defaultUser ⟨2025, 3, 1, 7, 0, 0, 0⟩ true
           defaultUser.sleep_time "sleep" then 1 else 0) :=
  ⟨malformed_config_behavior.1 defaultUser ⟨2025, 3, 1, 7, 0, 0, 0⟩
      (fun _ => true) (defaultUser, []) true "99:00" "wake" (by decide)
      (by decide) (by decide),
   malformed_config_behavior.2.2.2.2 defaultUser ⟨2025, 3, 1, 7, 0, 0, 0⟩
      100 5 (fun _ => true) rfl⟩

/-- C6: the firing-state writes never consult the notifier's result:
the store record left by a tick and the sequence of dispatched event
keys are identical for any two send functions; with an all-failing
notifier a due point event still stamps `last_fire[key]` with the
minute key and logs exactly one send attempt, and a due interval event
still advances its baseline to the tick's unix time and logs exactly
one attempt — nothing is retried within the tick. -/
theorem dispatch_failure_still_marks :
    (∀ (u : User) (now : Instant) (t : Int) (wd : Nat)
      (send send' : String → Bool),
      (processUser u now t wd send).1 =
        (processUser u now t wd send').1) ∧
    (∀ (u : User) (now : Instant) (t : Int) (wd : Nat)
      (send send' : String → Bool),
      (processUser u now t wd send).2.map Prod.fst =
        (processUser u now t wd send').2.map Prod.fst) ∧
    (∀ (snap : User) (now : Instant)
      (st : User × List (String × Bool)) (gate : Bool)
      (cfg key : String),
      pointCond snap now gate cfg key = true →
      (firePoint snap now (fun _ => false) st gate cfg key).1.last_fire
          = setKey key (key_at now) snap.last_fire ∧
        (firePoint snap now (fun _ => false) st gate cfg key).2 =
          st.2 ++ [(key, false)]) ∧
    (∀ (st : User × List (String × Bool)) (en : Bool) (ws we : String)
      (every lastTs dflt : Int) (key : String) (now : Instant)
      (t : Int) (setTs : User → Int → User),
      (intervalStep en ws we every lastTs dflt now t).1 = true →
      (fireInterval st en ws we every lastTs dflt key now t
          (fun _ => false) setTs).1 = setTs st.1 t ∧
        (fireInterval st en ws we every lastTs dflt key now t
          (fun _ => false) setTs).2 = st.2 ++ [(key, false)]) := by
  refine ⟨?_, ?_, ?_, ?_⟩
  · intro u now t wd send send'
    exact (processUser_sameState u now t wd send send').1
  · intro u now t wd send send'
    exact (processUser_sameState u now t wd send send').2
  · intro snap now st gate cfg key hc
    constructor
    · rw [firePoint_fst, if_pos hc]
    · rw [firePoint_snd, if_pos hc]
  · intro st en ws we every lastTs dflt key now t setTs h
    have h2 := intervalStep_fired_imp en ws we every lastTs dflt now t h
    constructor
    · rw [fireInterval_fst, h2]
      simp
    · rw [fireInterval_snd, if_pos h]

/-- Witness for C6: the tick state at 07:00 is the same for a failing
and a succeeding notifier, and the due wake event under a failing
notifier still stamps its minute key. -/
theorem dispatch_failure_still_marks_witness :
    (processUser defaultUser ⟨2025, 3, 1, 7, 0, 0, 0⟩ 100 5
        (fun _ => false)).1 =
      (processUser defaultUser ⟨2025, 3, 1, 7, 0, 0, 0⟩ 100 5
        (fun _ => true)).1 ∧
    ((firePoint defaultUser ⟨2025, 3, 1, 7, 0, 0, 0⟩ (fun _ => false)
        (defaultUser, []) true "07:00" "wake").1.last_fire =
      setKey "wake" (key_at ⟨2025, 3, 1, 7, 0, 0, 0⟩)
        defaultUser.last_fire ∧
      (firePoint defaultUser ⟨2025, 3, 1, 7, 0, 0, 0⟩ (fun _ => false)
        (defaultUser, []) true "07:00" "wake").2 =
        ((defaultUser, ([] : List (String × Bool)))).2 ++
          [("wake", false)]) :=
  ⟨dispatch_failure_still_marks.1 defaultUser ⟨2025, 3, 1, 7, 0, 0, 0⟩
      100 5 (fun _ => false) (fun _ => true),
   dispatch_failure_still_marks.2.2.1 defaultUser
      ⟨2025, 3, 1, 7, 0, 0, 0⟩ (defaultUser, []) true "07:00" "wake"
      (by decide)⟩

theorem preset_baselines (u : User) (p : String) (t : Int)
    (hp : p = "STANDARD" ∨ p = "OFFICE" ∨ p = "DEVELOPER" ∨
      p = "STUDENT" ∨ p = "FITNESS") :
    ((apply_preset u p t).last_water_ts = t ∧
     (apply_preset u p t).last_break_ts = t ∧
     (apply_preset u p t).last_eye_ts = t ∧
     (apply_preset u p t).last_posture_ts = t) ∧
    (0 < (apply_preset u p t).water_every_min ∧
     0 < (apply_preset u p t).break_every_min ∧
     0 < (apply_preset u p t).eye_every_min ∧
     0 < (apply_preset u p t).posture_every_min) := by
  rcases hp with h | h | h | h | h <;> subst h
  · exact ⟨⟨rfl, rfl, rfl, rfl⟩,
      ⟨(by norm_num : (0 : Int) < 60), (by norm_num : (0 : Int) < 120),
       (by norm_num : (0 : Int) < 30), (by norm_num : (0 : Int) < 45)⟩⟩
  · exact ⟨⟨rfl, rfl, rfl, rfl⟩,
      ⟨(by norm_num : (0 : Int) < 45), (by norm_num : (0 : Int) < 90),
       (by norm_num : (0 : Int) < 25), (by norm_num : (0 : Int) < 40)⟩⟩
  · exact ⟨⟨rfl, rfl, rfl, rfl⟩,
      ⟨(by norm_num : (0 : Int) < 60), (by norm_num : (0 : Int) < 90),
       (by norm_num : (0 : Int) < 20), (by norm_num : (0 : Int) < 40)⟩⟩
  · exact ⟨⟨rfl, rfl, rfl, rfl⟩,
      ⟨(by norm_num : (0 : Int) < 60), (by norm_num : (0 : Int) < 120),
       (by norm_num : (0 : Int) < 30), (by norm_num : (0 : Int) < 45)⟩⟩
  · exact ⟨⟨rfl, rfl, rfl, rfl⟩,
      ⟨(by norm_num : (0 : Int) < 30), (by norm_num : (0 : Int) < 120),
       (by norm_num : (0 : Int) < 30), (by norm_num : (0 : Int) < 45)⟩⟩

/-- C8: applying any named preset writes the tick's unix time into all
four interval baselines and installs positive interval values, so no
interval category dispatches again before a full interval has elapsed
from the reset; re-enabling a disabled interval category (the toggle
handlers) likewise resets that category's baseline to now and enables
it, and no dispatch happens before a full effective interval has
elapsed (water shown end-to-end for the toggles). -/
theorem baseline_reset_policy :
    (∀ (u : User) (p : String) (t : Int),
      p = "STANDARD" ∨ p = "OFFICE" ∨ p = "DEVELOPER" ∨
        p = "STUDENT" ∨ p = "FITNESS" →
      ((apply_preset u p t).last_water_ts = t ∧
       (apply_preset u p t).last_break_ts = t ∧
       (apply_preset u p t).last_eye_ts = t ∧
       (apply_preset u p t).last_posture_ts = t) ∧
      (0 < (apply_preset u p t).water_every_min ∧
       0 < (apply_preset u p t).break_every_min ∧
       0 < (apply_preset u p t).eye_every_min ∧
       0 < (apply_preset u p t).posture_every_min)) ∧
    (∀ (u : User) (p : String) (t t' : Int) (now : Instant) (wd : Nat)
      (send : String → Bool),
      p = "STANDARD" ∨ p = "OFFICE" ∨ p = "DEVELOPER" ∨
        p = "STUDENT" ∨ p = "FITNESS" → t ≠ 0 →
      t' - t < (apply_preset u p t).water_every_min * 60 →
      t' - t < (apply_preset u p t).break_every_min * 60 →
      t' - t < (apply_preset u p t).eye_every_min * 60 →
      t' - t < (apply_preset u p t).posture_every_min * 60 →
      countKey "water"
          (processUser (apply_preset u p t) now t' wd send).2 = 0 ∧
      countKey "break"
          (processUser (apply_preset u p t) now t' wd send).2 = 0 ∧
      countKey "eye"
          (processUser (apply_preset u p t) now t' wd send).2 = 0 ∧
      countKey "posture"
          (processUser (apply_preset u p t) now t' wd send).2 = 0) ∧
    (∀ (u : User) (t : Int),
      (u.water_enabled = false →
        (toggle_water u t).water_enabled = true ∧
        (toggle_water u t).last_water_ts = t) ∧
      (u.break_enabled = false →
        (toggle_break u t).break_enabled = true ∧
        (toggle_break u t).last_break_ts = t) ∧
      (u.eye_enabled = false →
        (toggle_eye u t).eye_enabled = true ∧
        (toggle_eye u t).last_eye_ts = t) ∧
      (u.posture_enabled = false →
        (toggle_posture u t).posture_enabled = true ∧
        (toggle_posture u t).last_posture_ts = t)) ∧
    (∀ (u : User) (t t' : Int) (now : Instant) (wd : Nat)
      (send : String → Bool),
      u.water_enabled = false → t ≠ 0 →
      t' - t <
        (if u.water_every_min = 0 then 60 else u.water_every_min) * 60 →
      countKey "water"
          (processUser (toggle_water u t) now t' wd send).2 = 0) := by
  refine ⟨?_, ?_, ?_, ?_⟩
  · intro u p t hp
    exact preset_baselines u p t hp
  · intro u p t t' now wd send hp ht0 hb1 hb2 hb3 hb4
    obtain ⟨⟨e1, e2, e3, e4⟩, q1, q2, q3, q4⟩ := preset_baselines u p t hp
    refine ⟨?_, ?_, ?_, ?_⟩
    · apply water_no_early_fire
      · rw [e1]
        exact ht0
      · rw [if_neg (by omega : ¬ (apply_preset u p t).water_every_min = 0),
          e1]
        omega
    · apply break_no_early_fire
      · rw [e2]
        exact ht0
      · rw [if_neg (by omega : ¬ (apply_preset u p t).break_every_min = 0),
          e2]
        omega
    · apply eye_no_early_fire
      · rw [e3]
        exact ht0
      · rw [if_neg (by omega : ¬ (apply_preset u p t).eye_every_min = 0),
          e3]
        omega
    · apply posture_no_early_fire
      · rw [e4]
        exact ht0
      · rw [if_neg (by omega :
            ¬ (apply_preset u p t).posture_every_min = 0), e4]
        omega
  · intro u t
    refine ⟨?_, ?_, ?_, ?_⟩
    · intro hdis
      constructor <;> simp [toggle_water, hdis]
    · intro hdis
      constructor <;> simp [toggle_break, hdis]
    · intro hdis
      constructor <;> simp [toggle_eye, hdis]
    · intro hdis
      constructor <;> simp [toggle_posture, hdis]
  · intro u t t' now wd send hdis ht0 hb
    have hts : (toggle_water u t).last_water_ts = t := by
      simp [toggle_water, hdis]
    have hev : (toggle_water u t).water_every_min = u.water_every_min := by
      simp [toggle_water, hdis]
    apply water_no_early_fire
    · rw [hts]
      exact ht0
    · rw [hts, hev]
      by_cases h0 : u.water_every_min = 0
      · rw [if_pos h0] at hb ⊢
        omega
      · rw [if_neg h0] at hb ⊢
        omega

/-- Witness for C8: the STANDARD preset applied at unix time 1000 and
evaluated 30 seconds later dispatches no interval event, and a water
toggle re-enable at 1000 dispatches nothing 30 seconds later. -/
theorem baseline_reset_policy_witness :
    (((apply_preset defaultUser "STANDARD" 1000).last_water_ts = 1000 ∧
      (apply_preset defaultUser "STANDARD" 1000).last_break_ts = 1000 ∧
      (apply_preset defaultUser "STANDARD" 1000).last_eye_ts = 1000 ∧
      (apply_preset defaultUser "STANDARD" 1000).last_posture_ts =
        1000) ∧
     (0 < (apply_preset defaultUser "STANDARD" 1000).water_every_min ∧
      0 < (apply_preset defaultUser "STANDARD" 1000).break_every_min ∧
      0 < (apply_preset defaultUser "STANDARD" 1000).eye_every_min ∧
      0 < (apply_preset defaultUser "STANDARD"
        1000).posture_every_min)) ∧
    (countKey "water"
        (processUser (apply_preset defaultUser "STANDARD" 1000)
          ⟨2025, 3, 1, 9, 0, 0, 0⟩ 1030 5 (fun _ => true)).2 = 0 ∧
     countKey "break"
        (processUser (apply_preset defaultUser "STANDARD" 1000)
          ⟨2025, 3, 1, 9, 0, 0, 0⟩ 1030 5 (fun _ => true)).2 = 0 ∧
     countKey "eye"
        (processUser (apply_preset defaultUser "STANDARD" 1000)
          ⟨2025, 3, 1, 9, 0, 0, 0⟩ 1030 5 (fun _ => true)).2 = 0 ∧
     countKey "posture"
        (processUser (apply_preset defaultUser "STANDARD" 1000)
          ⟨2025, 3, 1, 9, 0, 0, 0⟩ 1030 5 (fun _ => true)).2 = 0) ∧
    countKey "water"
        (processUser
          (toggle_water { defaultUser with water_enabled := false } 1000)
          ⟨2025, 3, 1, 9, 0, 0, 0⟩ 1030 5 (fun _ => true)).2 = 0 :=
  ⟨baseline_reset_policy.1 defaultUser "STANDARD" 1000 (Or.inl rfl),
   baseline_reset_policy.2.1 defaultUser "STANDARD" 1000 1030
      ⟨2025, 3, 1, 9, 0, 0, 0⟩ 5 (fun _ => true) (Or.inl rfl)
      (by decide) (by decide) (by decide) (by decide) (by decide),
   baseline_reset_policy.2.2.2
      { defaultUser with water_enabled := false } 1000 1030
      ⟨2025, 3, 1, 9, 0, 0, 0⟩ 5 (fun _ => true) rfl (by decide)
      (by decide)⟩
